import Mathlib

/-!
Shallow embedding of the papermc-discord repository:
the signed-webhook gateway (`src/discord_webhook_app.py`) and the two
lifecycle workers (`src/lambda_func/discord_stop_instance.py`,
`src/lambda_func/discord_check_instance.py`).

Python exceptions are modelled by an explicit `Exn` outcome; external
capabilities (KMS decryption, EC2 control, the Ed25519 verifier, the
webhook transport) are modelled as oracle fields of a world structure.
Every observable side effect of a worker is recorded in an effect trace.
-/

namespace PapermcDiscord

/-- JSON values, as produced by Python's json.loads / consumed by json.dumps. -/
inductive Json where
  | null : Json
  | str : String → Json
  | num : Int → Json
  | arr : List Json → Json
  | obj : List (String × Json) → Json
deriving Repr

/-- Python dict subscript `d[k]` on a JSON value: key lookup on an object,
failure (KeyError / TypeError) is `none`. -/
def jGet (j : Json) (k : String) : Option Json :=
  match j with
  | .obj kvs => kvs.lookup k
  | _ => none

/-- Python list subscript `l[i]` on a JSON value: index into an array,
failure (IndexError / TypeError) is `none`. -/
def jIdx (j : Json) (i : Nat) : Option Json :=
  match j with
  | .arr xs => xs.get? i
  | _ => none

/-- Kind of a Python exception that escapes a handler uncaught. -/
inductive Exn where
  /-- `KeyError` from a missing dict key / header. -/
  | keyError : Exn
  /-- `ValueError` from `bytes.fromhex` on a non-hex string. -/
  | fromhexError : Exn
  /-- ValueError raised by the nacl library for a wrong-length key or signature. -/
  | naclLengthError : Exn
  /-- `json.loads` failure on a non-JSON body. -/
  | jsonDecodeError : Exn
  /-- `ValueError` raised for a missing required environment variable. -/
  | envMissingError : Exn
  /-- `RuntimeError` wrapping a KMS decryption failure. -/
  | kmsError : Exn
  /-- `RuntimeError` wrapping an EC2 operation failure. -/
  | ec2Error : Exn
  /-- `RuntimeError` wrapping a Discord webhook delivery failure. -/
  | webhookError : Exn
  /-- Failure of the boto3 `invoke` call itself. -/
  | invokeError : Exn
deriving DecidableEq, Repr

/-- An HTTP-style response dict, as returned by the gateway handler. -/
structure Response where
  statusCode : Nat
  headers : List (String × String)
  body : Json
deriving Repr

/-- Outcome of the gateway handler: a returned response or an uncaught exception. -/
inductive Outcome where
  | resp : Response → Outcome
  | raised : Exn → Outcome
deriving Repr

/-- One boto3 `lambda.invoke` call: target function name and invocation type
("Event" is fire-and-forget). -/
structure Invocation where
  functionName : String
  invocationType : String
deriving DecidableEq, Repr

/-- Value of a single hex digit, `none` for a non-hex character. -/
def hexDigit (c : Char) : Option Nat :=
  if '0' ≤ c ∧ c ≤ '9' then some (c.toNat - '0'.toNat)
  else if 'a' ≤ c ∧ c ≤ 'f' then some (c.toNat - 'a'.toNat + 10)
  else if 'A' ≤ c ∧ c ≤ 'F' then some (c.toNat - 'A'.toNat + 10)
  else none

/-- `bytes.fromhex` on a list of characters (spaces between bytes ignored,
as in Python): pairs of hex digits to byte values, `none` on bad input. -/
def hexPairs : List Char → Option (List Nat)
  | [] => some []
  | ' ' :: rest => hexPairs rest
  | hi :: lo :: rest =>
    match hexDigit hi, hexDigit lo, hexPairs rest with
    | some h, some l, some bs => some ((h * 16 + l) :: bs)
    | _, _, _ => none
  | [_] => none

/-- `bytes.fromhex` on a string. -/
def hexDecode (s : String) : Option (List Nat) :=
  hexPairs s.data

/-- External world of the gateway handler: whether the boto3 `invoke` call for
a given function succeeds, and the eventual outcome of the asynchronously
invoked worker (never read by the gateway — fire and forget). -/
structure GatewayWorld where
  /-- Does `boto3.client("lambda").invoke(FunctionName=fn, InvocationType="Event")` succeed? -/
  invokeOk : String → Bool
  /-- The eventual success/failure of the triggered worker; invisible to the gateway. -/
  workerOutcome : String → Bool
  /-- The Ed25519 verification oracle: key bytes, message string, signature bytes. -/
  edVerify : List Nat → String → List Nat → Bool

/-- The acknowledgment body built by `invoke_lambda_function`
(src/discord_webhook_app.py:147-153):
`{type: 4, data: {content: success_message, flags: 4096}}`. -/
def ackBody (success_message : String) : Json :=
  .obj [("type", .num 4),
        ("data", .obj [("content", .str success_message),
                       ("flags", .num 4096)])]

/-- `invoke_lambda_function(function_name, success_message)`
(src/discord_webhook_app.py:124-154): asynchronously invoke the named
Lambda and answer with a fixed 200 acknowledgment payload. -/
def invoke_lambda_function (w : GatewayWorld) (function_name success_message : String) :
    Outcome × List Invocation :=
  if w.invokeOk function_name then
    (.resp { statusCode := 200
             headers := [("Content-Type", "application/json")]
             body := ackBody success_message },
     [{ functionName := function_name, invocationType := "Event" }])
  else
    (.raised .invokeError, [])

/-- `command_handler(body)` (src/discord_webhook_app.py:89-121): exact-match
dispatch of `body.data.name` / `body.data.options[0].value` to a worker
invocation, 400 "Unhandled command" otherwise. -/
def command_handler (w : GatewayWorld) (body : Json) : Outcome × List Invocation :=
  match jGet body "data" with
  | none => (.raised .keyError, [])
  | some data =>
    match jGet data "name" with
    | none => (.raised .keyError, [])
    | some command =>
      match ((jGet data "options").bind (jIdx · 0)).bind (jGet · "value") with
      | none => (.raised .keyError, [])
      | some action =>
        match command, action with
        | .str "server", .str "start" =>
          invoke_lambda_function w "discord-start-instance" "サーバーを起動しています・・・"
        | .str "server", .str "stop" =>
          invoke_lambda_function w "discord-stop-instance" "サーバーを停止しています・・・"
        | .str "server", .str "status" =>
          invoke_lambda_function w "discord-check-instance" "サーバーステータスを取得しています・・・"
        | _, _ =>
          (.resp { statusCode := 400, headers := [], body := .str "Unhandled command" }, [])

/-- An inbound API-Gateway event: the raw body string (the bytes that were
signed), the result of `json.loads` on it, and the header map. -/
structure Event where
  rawBody : String
  parsedBody : Option Json
  headers : List (String × String)

/-- `lambda_handler(event, context)` (src/discord_webhook_app.py:11-71):
parse the body, verify the Ed25519 signature over timestamp‖rawBody
(only `BadSignatureError` is converted to a 401; every other failure
propagates as an exception), then route by interaction type. -/
def gw_lambda_handler (w : GatewayWorld) (public_key : String) (event : Event) :
    Outcome × List Invocation :=
  match event.parsedBody with
  | none => (.raised .jsonDecodeError, [])
  | some body =>
    match event.headers.lookup "x-signature-ed25519" with
    | none => (.raised .keyError, [])
    | some signature =>
      match event.headers.lookup "x-signature-timestamp" with
      | none => (.raised .keyError, [])
      | some timestamp =>
        match hexDecode public_key with
        | none => (.raised .fromhexError, [])
        | some keyBytes =>
          if keyBytes.length ≠ 32 then (.raised .naclLengthError, [])
          else
            let message := timestamp ++ event.rawBody
            match hexDecode signature with
            | none => (.raised .fromhexError, [])
            | some sigBytes =>
              if sigBytes.length ≠ 64 then (.raised .naclLengthError, [])
              else if ¬ w.edVerify keyBytes message sigBytes then
                (.resp { statusCode := 401, headers := [],
                         body := .str "invalid request signature" }, [])
              else
                match jGet body "type" with
                | none => (.raised .keyError, [])
                | some (.num 1) =>
                  (.resp { statusCode := 200, headers := [],
                           body := .obj [("type", .num 1)] }, [])
                | some (.num 2) => command_handler w body
                | some _ =>
                  (.resp { statusCode := 400, headers := [],
                           body := .str "unhandled request type" }, [])

/-! ## Lifecycle workers -/

/-- One observable side effect of a worker invocation, in execution order. -/
inductive Effect where
  /-- A KMS `decrypt` call on the given base64 ciphertext. -/
  | kmsDecrypt (ciphertext : String) : Effect
  /-- `ec2.stop_instances(InstanceIds=[instanceId])`. -/
  | ec2Stop (instanceId : String) : Effect
  /-- `ec2.start_instances(InstanceIds=[instanceId])` (spec-modelled Start worker). -/
  | ec2Start (instanceId : String) : Effect
  /-- `ec2.describe_instances(InstanceIds=[instanceId])` — one state read. -/
  | ec2Describe (instanceId : String) : Effect
  /-- `time.sleep(n)`. -/
  | sleepSecs (n : Nat) : Effect
  /-- `requests.post(url, json={content, flags})` — one notification attempt. -/
  | webhookPost (url content : String) (flags : Int) : Effect
deriving DecidableEq, Repr

/-- Result of a worker invocation: a return value, an uncaught exception, or
divergence (the polling loop never finished within the modelling fuel). -/
inductive WResult where
  | returns (s : String) : WResult
  | raises (e : Exn) : WResult
  | diverged : WResult
deriving DecidableEq, Repr

/-- Environment and decryption capability shared by the workers. -/
structure WorkerEnv where
  /-- `os.environ["INSTANCE_ID"]` (encrypted), absent when `none`. -/
  instanceIdEnc : Option String
  /-- `os.environ["DISCORD_WEBHOOK_URL"]` (encrypted), absent when `none`. -/
  webhookUrlEnc : Option String
  /-- `os.environ["AWS_LAMBDA_FUNCTION_NAME"]`, the KMS encryption context. -/
  functionName : String
  /-- KMS `decrypt(ciphertext, context)`; `none` models a decryption failure. -/
  decrypt : String → String → Option String

/-- Shared worker preamble (src/lambda_func/discord_stop_instance.py:40-63,
src/lambda_func/discord_check_instance.py:39-62): read the two required
environment variables, then decrypt both via KMS. A missing variable raises
`ValueError` before anything else happens; a decryption failure raises
`RuntimeError`. -/
def resolveSecrets (env : WorkerEnv) : Except Exn (String × String) × List Effect :=
  match env.instanceIdEnc with
  | none => (.error .envMissingError, [])
  | some instance_id_encrypted =>
    match env.webhookUrlEnc with
    | none => (.error .envMissingError, [])
    | some discord_webhook_url_encrypted =>
      match env.decrypt instance_id_encrypted env.functionName with
      | none => (.error .kmsError, [.kmsDecrypt instance_id_encrypted])
      | some instance_id =>
        match env.decrypt discord_webhook_url_encrypted env.functionName with
        | none => (.error .kmsError,
                   [.kmsDecrypt instance_id_encrypted,
                    .kmsDecrypt discord_webhook_url_encrypted])
        | some discord_webhook_url =>
          (.ok (instance_id, discord_webhook_url),
           [.kmsDecrypt instance_id_encrypted,
            .kmsDecrypt discord_webhook_url_encrypted])

/-- Exit status of the Stop worker's state-confirmation loop. -/
inductive LoopRes where
  | completed : LoopRes
  | apiError : LoopRes
  | fuelExhausted : LoopRes
deriving DecidableEq, Repr

/-- The Stop worker's state-confirmation loop
(src/lambda_func/discord_stop_instance.py:71-78):
`while instance_running:` read the state; on `"stopped"` clear the flag,
otherwise sleep 5 seconds and re-read. The handler enters it with
`instance_running = False`. `reads n` is the state returned by the n-th
`describe_instances` call (`none` = API error); `fuel` bounds the number of
iterations modelled. -/
def stopStateLoop (iid : String) (reads : Nat → Option String) :
    (fuel : Nat) → (instance_running : Bool) → (n : Nat) → LoopRes × List Effect
  | _, false, _ => (.completed, [])
  | 0, true, _ => (.fuelExhausted, [])
  | fuel + 1, true, n =>
    match reads n with
    | none => (.apiError, [.ec2Describe iid])
    | some state =>
      if state = "stopped" then
        let r := stopStateLoop iid reads fuel false (n + 1)
        (r.1, .ec2Describe iid :: r.2)
      else
        let r := stopStateLoop iid reads fuel true (n + 1)
        (r.1, .ec2Describe iid :: .sleepSecs 5 :: r.2)

/-- External world of the Stop worker. -/
structure StopWorld where
  env : WorkerEnv
  /-- Does `ec2.stop_instances` succeed? -/
  stopOk : Bool
  /-- State name returned by the n-th `describe_instances` call (`none` = API error). -/
  describeState : Nat → Option String
  /-- Does the Discord webhook POST succeed? -/
  postOk : Bool

/-- `lambda_handler(event, context)` of the Stop worker
(src/lambda_func/discord_stop_instance.py:12-98): resolve secrets, issue
`stop_instances`, run the state-confirmation loop (entered with
`instance_running = False`), then POST the stopped-notification and
return `"-"`. -/
def stop_lambda_handler (w : StopWorld) (fuel : Nat) (event : Json) (context : Nat) :
    WResult × List Effect :=
  match resolveSecrets w.env with
  | (.error e, tr) => (.raises e, tr)
  | (.ok (instance_id, discord_webhook_url), tr) =>
    if ¬ w.stopOk then (.raises .ec2Error, tr ++ [.ec2Stop instance_id])
    else
      match stopStateLoop instance_id w.describeState fuel false 0 with
      | (.apiError, ltr) => (.raises .ec2Error, tr ++ [.ec2Stop instance_id] ++ ltr)
      | (.fuelExhausted, ltr) => (.diverged, tr ++ [.ec2Stop instance_id] ++ ltr)
      | (.completed, ltr) =>
        let content := "インスタンス【" ++ instance_id ++ "】が停止しました"
        let trace := tr ++ [.ec2Stop instance_id] ++ ltr
                        ++ [.webhookPost discord_webhook_url content 4096]
        if ¬ w.postOk then (.raises .webhookError, trace)
        else (.returns "-", trace)

/-- What one `describe_instances` call reports about the instance. -/
structure InstanceDesc where
  /-- `["State"]["Name"]`. -/
  stateName : String
  /-- `.get("PublicIpAddress")` — `None` when absent. -/
  publicIp : Option String
deriving DecidableEq, Repr

/-- Python str() of a value that may be None, as interpolated by an f-string. -/
def pyStr : Option String → String
  | some s => s
  | none => "None"

/-- External world of the Status worker. -/
structure CheckWorld where
  env : WorkerEnv
  /-- Result of the single `describe_instances` call (`none` = API error). -/
  describeResult : Option InstanceDesc
  /-- Does the Discord webhook POST succeed? -/
  postOk : Bool

/-- `lambda_handler(event, context)` of the Status worker
(src/lambda_func/discord_check_instance.py:11-105): resolve secrets, one
`describe_instances` read, branch on the state name to build the
notification content, POST it, and return the result string. -/
def check_lambda_handler (w : CheckWorld) (event : Json) (context : Nat) :
    WResult × List Effect :=
  match resolveSecrets w.env with
  | (.error e, tr) => (.raises e, tr)
  | (.ok (instance_id, discord_webhook_url), tr) =>
    match w.describeResult with
    | none => (.raises .ec2Error, tr ++ [.ec2Describe instance_id])
    | some desc =>
      let state := desc.stateName
      let cr : String × String :=
        if state = "running" then
          let public_ip := pyStr desc.publicIp
          ("インスタンス【" ++ instance_id ++ "】は起動済みです\r" ++ public_ip,
           state ++ " " ++ public_ip)
        else if state = "stopped" then
          ("インスタンス【" ++ instance_id ++ "】は停止しています", state)
        else
          ("インスタンス【" ++ instance_id ++ "】のステータスは" ++ state ++ "です", state)
      let trace := tr ++ [.ec2Describe instance_id]
                      ++ [.webhookPost discord_webhook_url cr.1 4096]
      if ¬ w.postOk then (.raises .webhookError, trace)
      else (.returns cr.2, trace)

/-- External world of the spec-modelled Start worker. -/
structure StartWorld where
  env : WorkerEnv
  /-- Does `ec2.start_instances` succeed? -/
  startOk : Bool
  /-- Does the Discord webhook POST succeed? -/
  postOk : Bool

/-- Modelled from the spec: the Start worker's source (the
`discord-start-instance` function) is not under src/; spec §4.5 describes it
as "same shape as Stop, mirrored: trigger the start operation once, then
notify that start was initiated. (No blocking wait for running — fire,
acknowledge, exit.)". So: shared preamble, one `start_instances` call, no
polling, one notification POST carrying the same notification-suppression
flags value as the Stop worker's. -/
def start_lambda_handler (w : StartWorld) (event : Json) (context : Nat) :
    WResult × List Effect :=
  match resolveSecrets w.env with
  | (.error e, tr) => (.raises e, tr)
  | (.ok (instance_id, discord_webhook_url), tr) =>
    if ¬ w.startOk then (.raises .ec2Error, tr ++ [.ec2Start instance_id])
    else
      let content := "インスタンス【" ++ instance_id ++ "】が起動しました"
      let trace := tr ++ [.ec2Start instance_id]
                      ++ [.webhookPost discord_webhook_url content 4096]
      if ¬ w.postOk then (.raises .webhookError, trace)
      else (.returns "-", trace)

/-! ## Trace observers -/

/-- Is this effect a `describe_instances` state read? -/
def isDescribe : Effect → Bool
  | .ec2Describe _ => true
  | _ => false

/-- Is this effect a webhook notification attempt? -/
def isPost : Effect → Bool
  | .webhookPost _ _ _ => true
  | _ => false

/-- Number of effects in a trace satisfying `p`. -/
def countEff (p : Effect → Bool) (tr : List Effect) : Nat :=
  (tr.filter p).length

/-- Content of the first webhook notification in a trace, if any. -/
def postedContent : List Effect → Option String
  | [] => none
  | .webhookPost _ content _ :: _ => some content
  | _ :: rest => postedContent rest

/-- Does this effect, if it is a notification, carry the flags value 4096? -/
def effectFlags4096 : Effect → Bool
  | .webhookPost _ _ flags => flags == 4096
  | _ => true

/-! ## Concrete fixtures used by witnesses and counterexamples -/

/-- A worker environment whose variables are present and decrypt cleanly. -/
def testEnv : WorkerEnv where
  instanceIdEnc := some "ENC-ID"
  webhookUrlEnc := some "ENC-URL"
  functionName := "fn"
  decrypt := fun c _ => if c = "ENC-ID" then some "i-0123456789" else some "https://discord.example/webhook"

/-- A Stop-worker world in which the instance never reports `"stopped"`. -/
def stopWorldNeverStops : StopWorld where
  env := testEnv
  stopOk := true
  describeState := fun _ => some "running"
  postOk := true

/-- A Status-worker world reporting a running instance with a public address. -/
def checkWorldRunning : CheckWorld where
  env := testEnv
  describeResult := some { stateName := "running", publicIp := some "10.0.0.5" }
  postOk := true

/-- A gateway world whose signature oracle accepts and whose invokes succeed. -/
def gwWorldOk : GatewayWorld where
  invokeOk := fun _ => true
  workerOutcome := fun _ => true
  edVerify := fun _ _ _ => true

/-- A gateway world whose signature oracle rejects every signature. -/
def gwWorldBadSig : GatewayWorld where
  invokeOk := fun _ => true
  workerOutcome := fun _ => true
  edVerify := fun _ _ _ => false

/-- A gateway world whose invokes succeed but whose workers eventually fail. -/
def gwWorldWorkerFails : GatewayWorld where
  invokeOk := fun _ => true
  workerOutcome := fun _ => false
  edVerify := fun _ _ _ => true

/-- A 64-hex-character public key (32 bytes). -/
def pk64 : String :=
  "aaaaaaaaaaaaaaaaaaaaaaaaaaaaaaaaaaaaaaaaaaaaaaaaaaaaaaaaaaaaaaaa"

/-- A 128-hex-character signature (64 bytes). -/
def sig128 : String :=
  String.mk (List.replicate 128 'b')

/-- A type-1 (Ping) event with both signature headers present. -/
def evPing : Event where
  rawBody := "BODY"
  parsedBody := some (.obj [("type", .num 1), ("extra", .str "ignored")])
  headers := [("x-signature-ed25519", sig128), ("x-signature-timestamp", "1700000000")]

/-- An event whose `x-signature-ed25519` header is missing. -/
def evNoSigHeader : Event where
  rawBody := "BODY"
  parsedBody := some (.obj [("type", .num 1)])
  headers := [("x-signature-timestamp", "1700000000")]

/-- An event whose signature header is not valid hexadecimal. -/
def evBadHexSig : Event where
  rawBody := "BODY"
  parsedBody := some (.obj [("type", .num 1)])
  headers := [("x-signature-ed25519", "zz"), ("x-signature-timestamp", "1700000000")]

/-- An event whose signature decodes but has the wrong length (1 byte). -/
def evShortSig : Event where
  rawBody := "BODY"
  parsedBody := some (.obj [("type", .num 1)])
  headers := [("x-signature-ed25519", "bb"), ("x-signature-timestamp", "1700000000")]

/-- A type-3 event (MESSAGE_COMPONENT), outside the handled set. -/
def evType3 : Event where
  rawBody := "BODY"
  parsedBody := some (.obj [("type", .num 3)])
  headers := [("x-signature-ed25519", sig128), ("x-signature-timestamp", "1700000000")]

/-- The payload of a `/server start` application command. -/
def bodyServerStart : Json :=
  .obj [("type", .num 2),
        ("data", .obj [("name", .str "server"),
                       ("options", .arr [.obj [("value", .str "start")]])])]

/-- The payload of a `/server reboot` command — an action outside the known set. -/
def bodyServerReboot : Json :=
  .obj [("type", .num 2),
        ("data", .obj [("name", .str "server"),
                       ("options", .arr [.obj [("value", .str "reboot")]])])]

/-- A worker environment whose `INSTANCE_ID` variable is absent. -/
def envMissingId : WorkerEnv where
  instanceIdEnc := none
  webhookUrlEnc := some "ENC-URL"
  functionName := "fn"
  decrypt := fun _ _ => some "x"

/-- A Stop-worker world with the `INSTANCE_ID` variable absent. -/
def stopWorldMissingId : StopWorld where
  env := envMissingId
  stopOk := true
  describeState := fun _ => some "stopped"
  postOk := true

/-- A Status-worker world with the `INSTANCE_ID` variable absent. -/
def checkWorldMissingId : CheckWorld where
  env := envMissingId
  describeResult := some { stateName := "running", publicIp := none }
  postOk := true

/-! ## Helper lemmas -/

/-- The Stop worker's loop is entered with `instance_running = False`, so it
completes at once with no reads, whatever the fuel, read oracle, or index. -/
theorem stopStateLoop_false (iid : String) (reads : Nat → Option String)
    (fuel n : Nat) : stopStateLoop iid reads fuel false n = (.completed, []) := by
  cases fuel <;> rfl

/-- Every effect emitted by the secret-resolution preamble is a KMS decryption. -/
theorem resolveSecrets_effects (env : WorkerEnv) (e : Effect)
    (h : e ∈ (resolveSecrets env).2) : ∃ c, e = .kmsDecrypt c := by
  rcases hi : env.instanceIdEnc with _ | e1
  · simp [resolveSecrets, hi] at h
  · rcases hu : env.webhookUrlEnc with _ | e2
    · simp [resolveSecrets, hi, hu] at h
    · rcases h1 : env.decrypt e1 env.functionName with _ | iid
      · simp [resolveSecrets, hi, hu, h1] at h
        exact ⟨e1, h⟩
      · rcases h2 : env.decrypt e2 env.functionName with _ | url
        · simp [resolveSecrets, hi, hu, h1, h2] at h
          rcases h with h | h
          · exact ⟨e1, h⟩
          · exact ⟨e2, h⟩
        · simp [resolveSecrets, hi, hu, h1, h2] at h
          rcases h with h | h
          · exact ⟨e1, h⟩
          · exact ⟨e2, h⟩

/-- When both environment variables are present and both decryptions succeed,
the preamble yields the plaintexts and exactly the two decryption effects. -/
theorem resolveSecrets_ok (env : WorkerEnv) (e1 e2 iid url : String)
    (h1 : env.instanceIdEnc = some e1) (h2 : env.webhookUrlEnc = some e2)
    (h3 : env.decrypt e1 env.functionName = some iid)
    (h4 : env.decrypt e2 env.functionName = some url) :
    resolveSecrets env = (.ok (iid, url), [.kmsDecrypt e1, .kmsDecrypt e2]) := by
  simp [resolveSecrets, h1, h2, h3, h4]

/-! ## Claims -/

/-- C1: the claim says the Stop worker repeatedly reads the instance state
until a read returns Stopped and only then notifies. The code initializes
`instance_running = False` immediately before `while instance_running:`
(src/lambda_func/discord_stop_instance.py:71-72), so the loop body is
unreachable: on an instance that never reports "stopped", the worker performs
zero state reads and still issues exactly one stopped-notification. -/
theorem C1_stop_worker_never_polls :
    stop_lambda_handler stopWorldNeverStops 1000 .null 0 =
      (.returns "-",
       [.kmsDecrypt "ENC-ID", .kmsDecrypt "ENC-URL", .ec2Stop "i-0123456789",
        .webhookPost "https://discord.example/webhook"
          "インスタンス【i-0123456789】が停止しました" 4096])
  ∧ countEff isDescribe (stop_lambda_handler stopWorldNeverStops 1000 .null 0).2 = 0
  ∧ countEff isPost (stop_lambda_handler stopWorldNeverStops 1000 .null 0).2 = 1 := by
  refine ⟨?_, ?_, ?_⟩ <;> decide

/-- C2 counterexample: an event whose `x-signature-ed25519` header is missing
does not get the 401 "invalid request signature" response; the `KeyError`
escapes the handler (only `BadSignatureError` is caught,
src/discord_webhook_app.py:37-43). -/
theorem C2_missing_header_raises :
    gw_lambda_handler gwWorldOk pk64 evNoSigHeader = (.raised .keyError, []) := rfl

/-- C2 (amended): only an Ed25519 verification failure over
timestamp‖rawBody yields the 401 "invalid request signature" response with no
routing; a missing signature header, a hex-decoding failure of the signature
or public key, or a length mismatch raises an uncaught exception instead
(still with no routing and no worker invocation). -/
theorem C2_auth_failure_modes (w : GatewayWorld) (pk : String) (ev : Event)
    (body : Json) (sig ts : String) (keyBytes sigBytes : List Nat)
    (hb : ev.parsedBody = some body) :
    (ev.headers.lookup "x-signature-ed25519" = none →
       gw_lambda_handler w pk ev = (.raised .keyError, []))
  ∧ (ev.headers.lookup "x-signature-ed25519" = some sig →
     ev.headers.lookup "x-signature-timestamp" = some ts →
       (hexDecode pk = none → gw_lambda_handler w pk ev = (.raised .fromhexError, []))
     ∧ (hexDecode pk = some keyBytes →
          (keyBytes.length ≠ 32 →
             gw_lambda_handler w pk ev = (.raised .naclLengthError, []))
        ∧ (keyBytes.length = 32 →
             (hexDecode sig = none →
                gw_lambda_handler w pk ev = (.raised .fromhexError, []))
           ∧ (hexDecode sig = some sigBytes →
                (sigBytes.length ≠ 64 →
                   gw_lambda_handler w pk ev = (.raised .naclLengthError, []))
              ∧ (sigBytes.length = 64 →
                 w.edVerify keyBytes (ts ++ ev.rawBody) sigBytes = false →
                   gw_lambda_handler w pk ev =
                     (.resp { statusCode := 401, headers := [],
                              body := .str "invalid request signature" }, [])))))) := by
  refine ⟨fun h => by simp [gw_lambda_handler, hb, h], fun hs ht => ⟨?_, ?_⟩⟩
  · intro hpk; simp [gw_lambda_handler, hb, hs, ht, hpk]
  · intro hpk
    refine ⟨fun hlen => by simp [gw_lambda_handler, hb, hs, ht, hpk, hlen], fun hlen => ⟨?_, ?_⟩⟩
    · intro hsg; simp [gw_lambda_handler, hb, hs, ht, hpk, hlen, hsg]
    · intro hsg
      refine ⟨fun hslen => by simp [gw_lambda_handler, hb, hs, ht, hpk, hlen, hsg, hslen], ?_⟩
      intro hslen hv
      simp [gw_lambda_handler, hb, hs, ht, hpk, hlen, hsg, hslen, hv]

/-- Witness for C2_auth_failure_modes: each failure mode exercised at a
concrete event. -/
theorem C2_auth_failure_modes_witness :
    gw_lambda_handler gwWorldOk pk64 evNoSigHeader = (.raised .keyError, [])
  ∧ gw_lambda_handler gwWorldOk "zz" evPing = (.raised .fromhexError, [])
  ∧ gw_lambda_handler gwWorldOk "aa" evPing = (.raised .naclLengthError, [])
  ∧ gw_lambda_handler gwWorldOk pk64 evBadHexSig = (.raised .fromhexError, [])
  ∧ gw_lambda_handler gwWorldOk pk64 evShortSig = (.raised .naclLengthError, [])
  ∧ gw_lambda_handler gwWorldBadSig pk64 evPing =
      (.resp { statusCode := 401, headers := [],
               body := .str "invalid request signature" }, []) := by
  refine ⟨?_, ?_, ?_, ?_, ?_, ?_⟩
  · exact (C2_auth_failure_modes gwWorldOk pk64 evNoSigHeader
      (.obj [("type", .num 1)]) "" "" [] [] rfl).1 rfl
  · exact (((C2_auth_failure_modes gwWorldOk "zz" evPing
      (.obj [("type", .num 1), ("extra", .str "ignored")]) sig128 "1700000000" [] []
      rfl).2 rfl rfl).1 (by decide))
  · exact ((((C2_auth_failure_modes gwWorldOk "aa" evPing
      (.obj [("type", .num 1), ("extra", .str "ignored")]) sig128 "1700000000" [170] []
      rfl).2 rfl rfl).2 (by decide)).1 (by decide))
  · exact (((((C2_auth_failure_modes gwWorldOk pk64 evBadHexSig
      (.obj [("type", .num 1)]) "zz" "1700000000" (List.replicate 32 170) []
      rfl).2 rfl rfl).2 (by decide)).2 (by decide)).1 (by decide))
  · exact ((((((C2_auth_failure_modes gwWorldOk pk64 evShortSig
      (.obj [("type", .num 1)]) "bb" "1700000000" (List.replicate 32 170) [187]
      rfl).2 rfl rfl).2 (by decide)).2 (by decide)).2 (by decide)).1 (by decide))
  · exact ((((((C2_auth_failure_modes gwWorldBadSig pk64 evPing
      (.obj [("type", .num 1), ("extra", .str "ignored")]) sig128 "1700000000"
      (List.replicate 32 170) (List.replicate 64 187)
      rfl).2 rfl rfl).2 (by decide)).2 (by decide)).2 (by decide)).2
      (by decide) rfl)

/-- C3: for an ApplicationCommand payload, command name "server" with action
start/stop/status invokes exactly the corresponding worker with its distinct
acknowledgment message; any other name or action yields 400 "Unhandled
command" with no invocation, with exact (no partial, no case-insensitive)
matching. -/
theorem C3_command_dispatch (w : GatewayWorld) (body data nm action : Json)
    (hd : jGet body "data" = some data)
    (hn : jGet data "name" = some nm)
    (ha : ((jGet data "options").bind (jIdx · 0)).bind (jGet · "value") = some action) :
    (nm = .str "server" → action = .str "start" →
     w.invokeOk "discord-start-instance" = true →
       command_handler w body =
         (.resp { statusCode := 200, headers := [("Content-Type", "application/json")],
                  body := ackBody "サーバーを起動しています・・・" },
          [{ functionName := "discord-start-instance", invocationType := "Event" }]))
  ∧ (nm = .str "server" → action = .str "stop" →
     w.invokeOk "discord-stop-instance" = true →
       command_handler w body =
         (.resp { statusCode := 200, headers := [("Content-Type", "application/json")],
                  body := ackBody "サーバーを停止しています・・・" },
          [{ functionName := "discord-stop-instance", invocationType := "Event" }]))
  ∧ (nm = .str "server" → action = .str "status" →
     w.invokeOk "discord-check-instance" = true →
       command_handler w body =
         (.resp { statusCode := 200, headers := [("Content-Type", "application/json")],
                  body := ackBody "サーバーステータスを取得しています・・・" },
          [{ functionName := "discord-check-instance", invocationType := "Event" }]))
  ∧ ((nm ≠ .str "server" ∨
      (action ≠ .str "start" ∧ action ≠ .str "stop" ∧ action ≠ .str "status")) →
       command_handler w body =
         (.resp { statusCode := 400, headers := [], body := .str "Unhandled command" }, [])) := by
  refine ⟨?_, ?_, ?_, ?_⟩
  · intro e1 e2 h3
    subst e1; subst e2
    simp [command_handler, hd, hn, ha, invoke_lambda_function, h3]
  · intro e1 e2 h3
    subst e1; subst e2
    simp [command_handler, hd, hn, ha, invoke_lambda_function, h3]
  · intro e1 e2 h3
    subst e1; subst e2
    simp [command_handler, hd, hn, ha, invoke_lambda_function, h3]
  · intro h
    simp only [command_handler, hd, hn, ha]
    rcases h with h | ⟨a1, a2, a3⟩ <;> split <;> simp_all

/-- Witness for C3_command_dispatch: the start action invokes the Start
worker; an unknown action yields 400 with no invocation. -/
theorem C3_command_dispatch_witness :
    command_handler gwWorldOk bodyServerStart =
      (.resp { statusCode := 200, headers := [("Content-Type", "application/json")],
               body := ackBody "サーバーを起動しています・・・" },
       [{ functionName := "discord-start-instance", invocationType := "Event" }])
  ∧ command_handler gwWorldOk bodyServerReboot =
      (.resp { statusCode := 400, headers := [], body := .str "Unhandled command" }, []) := by
  constructor
  · exact (C3_command_dispatch gwWorldOk bodyServerStart
      (.obj [("name", .str "server"), ("options", .arr [.obj [("value", .str "start")]])])
      (.str "server") (.str "start") rfl rfl rfl).1 rfl rfl rfl
  · exact (C3_command_dispatch gwWorldOk bodyServerReboot
      (.obj [("name", .str "server"), ("options", .arr [.obj [("value", .str "reboot")]])])
      (.str "server") (.str "reboot") rfl rfl rfl).2.2.2
      (Or.inr ⟨by simp, by simp, by simp⟩)

/-- C4: after successful signature verification, a type-1 payload gets
status 200 with body exactly `{type: 1}` whatever its other fields; a type
outside {1, 2} gets status 400 with body "unhandled request type". -/
theorem C4_type_routing (w : GatewayWorld) (pk : String) (ev : Event)
    (body : Json) (sig ts : String) (keyBytes sigBytes : List Nat)
    (hb : ev.parsedBody = some body)
    (hs : ev.headers.lookup "x-signature-ed25519" = some sig)
    (ht : ev.headers.lookup "x-signature-timestamp" = some ts)
    (hk : hexDecode pk = some keyBytes) (hk32 : keyBytes.length = 32)
    (hsg : hexDecode sig = some sigBytes) (hs64 : sigBytes.length = 64)
    (hv : w.edVerify keyBytes (ts ++ ev.rawBody) sigBytes = true) :
    (jGet body "type" = some (.num 1) →
       gw_lambda_handler w pk ev =
         (.resp { statusCode := 200, headers := [], body := .obj [("type", .num 1)] }, []))
  ∧ (∀ t : Json, jGet body "type" = some t → t ≠ .num 1 → t ≠ .num 2 →
       gw_lambda_handler w pk ev =
         (.resp { statusCode := 400, headers := [],
                  body := .str "unhandled request type" }, [])) := by
  constructor
  · intro hty
    simp [gw_lambda_handler, hb, hs, ht, hk, hk32, hsg, hs64, hv, hty]
  · intro t hty ht1 ht2
    simp only [gw_lambda_handler, hb, hs, ht, hk, hk32, hsg, hs64, hv, hty]
    simp only [ne_eq, not_false_eq_true, ite_false, ite_true, if_neg, reduceIte]
    split <;> simp_all

/-- Witness for C4_type_routing: a concrete Ping event and a concrete type-3
event under an accepting signature oracle. -/
theorem C4_type_routing_witness :
    gw_lambda_handler gwWorldOk pk64 evPing =
      (.resp { statusCode := 200, headers := [], body := .obj [("type", .num 1)] }, [])
  ∧ gw_lambda_handler gwWorldOk pk64 evType3 =
      (.resp { statusCode := 400, headers := [], body := .str "unhandled request type" }, []) := by
  constructor
  · exact (C4_type_routing gwWorldOk pk64 evPing _ sig128 "1700000000"
      (List.replicate 32 170) (List.replicate 64 187) rfl rfl rfl (by decide) (by decide)
      (by decide) (by decide) rfl).1 rfl
  · exact (C4_type_routing gwWorldOk pk64 evType3 _ sig128 "1700000000"
      (List.replicate 32 170) (List.replicate 64 187) rfl rfl rfl (by decide) (by decide)
      (by decide) (by decide) rfl).2 (.num 3) rfl (by simp) (by simp)

/-- C5: when the boto3 invoke call succeeds, AsyncInvoker returns the fixed
200 acknowledgment `{type: 4, data: {content, flags: 4096}}` and records one
fire-and-forget ("Event") invocation; the response is identical for worlds
whose workers eventually succeed or fail — the worker outcome is never
observed. -/
theorem C5_async_invoker (w w2 : GatewayWorld) (fn msg : String)
    (h : w.invokeOk fn = true) (h2 : w2.invokeOk fn = true) :
    invoke_lambda_function w fn msg =
      (.resp { statusCode := 200, headers := [("Content-Type", "application/json")],
               body := ackBody msg },
       [{ functionName := fn, invocationType := "Event" }])
  ∧ invoke_lambda_function w fn msg = invoke_lambda_function w2 fn msg := by
  constructor <;> simp [invoke_lambda_function, h, h2]

/-- Witness for C5_async_invoker: concrete invocation in a world whose worker
succeeds and one whose worker fails. -/
theorem C5_async_invoker_witness :
    invoke_lambda_function gwWorldOk "discord-start-instance" "ack" =
      (.resp { statusCode := 200, headers := [("Content-Type", "application/json")],
               body := ackBody "ack" },
       [{ functionName := "discord-start-instance", invocationType := "Event" }])
  ∧ invoke_lambda_function gwWorldOk "discord-start-instance" "ack" =
      invoke_lambda_function gwWorldWorkerFails "discord-start-instance" "ack" :=
  C5_async_invoker gwWorldOk gwWorldWorkerFails "discord-start-instance" "ack" rfl rfl

/-- C6: the Status worker performs exactly one state read, and the
notification content is determined by the state: Running content carries the
instance id and the public address with a "state address" result value;
Stopped content is the fixed stopped template of the id alone (no address);
any other raw state string is echoed in the content. -/
theorem C6_status_worker (w : CheckWorld) (e1 e2 iid url : String)
    (desc : InstanceDesc) (ev : Json) (c : Nat)
    (h1 : w.env.instanceIdEnc = some e1) (h2 : w.env.webhookUrlEnc = some e2)
    (h3 : w.env.decrypt e1 w.env.functionName = some iid)
    (h4 : w.env.decrypt e2 w.env.functionName = some url)
    (h5 : w.describeResult = some desc) :
    countEff isDescribe (check_lambda_handler w ev c).2 = 1
  ∧ (∀ a : String, desc = { stateName := "running", publicIp := some a } →
       postedContent (check_lambda_handler w ev c).2 =
         some ("インスタンス【" ++ iid ++ "】は起動済みです\r" ++ a)
     ∧ List.IsInfix iid.data ("インスタンス【" ++ iid ++ "】は起動済みです\r" ++ a).data
     ∧ List.IsInfix a.data ("インスタンス【" ++ iid ++ "】は起動済みです\r" ++ a).data
     ∧ (w.postOk = true → (check_lambda_handler w ev c).1 = .returns ("running " ++ a)))
  ∧ (desc.stateName = "stopped" →
       postedContent (check_lambda_handler w ev c).2 =
         some ("インスタンス【" ++ iid ++ "】は停止しています"))
  ∧ (desc.stateName ≠ "running" → desc.stateName ≠ "stopped" →
       postedContent (check_lambda_handler w ev c).2 =
         some ("インスタンス【" ++ iid ++ "】のステータスは" ++ desc.stateName ++ "です")
     ∧ List.IsInfix desc.stateName.data
         ("インスタンス【" ++ iid ++ "】のステータスは" ++ desc.stateName ++ "です").data) := by
  have hres := resolveSecrets_ok w.env e1 e2 iid url h1 h2 h3 h4
  refine ⟨?_, ?_, ?_, ?_⟩
  · rcases hpo : w.postOk <;>
      by_cases hr : desc.stateName = "running" <;>
      by_cases hst : desc.stateName = "stopped" <;>
      simp [check_lambda_handler, hres, h5, hpo, hr, hst, countEff, isDescribe]
  · intro a hdesc
    subst hdesc
    refine ⟨?_, ⟨"インスタンス【".data, ("】は起動済みです\r" ++ a).data,
        by simp [String.data_append]⟩,
      ⟨("インスタンス【" ++ iid ++ "】は起動済みです\r").data, [],
        by simp [String.data_append]⟩, ?_⟩
    · rcases hpo : w.postOk <;>
        simp [check_lambda_handler, hres, h5, hpo, postedContent, pyStr]
    · intro hpo
      simp [check_lambda_handler, hres, h5, hpo, pyStr]
  · intro hst
    by_cases hr : desc.stateName = "running"
    · rw [hr] at hst; simp at hst
    · rcases hpo : w.postOk <;>
        simp [check_lambda_handler, hres, h5, hpo, hr, hst, postedContent]
  · intro hr hst
    refine ⟨?_, ⟨("インスタンス【" ++ iid ++ "】のステータスは").data, "です".data,
      by simp [String.data_append]⟩⟩
    rcases hpo : w.postOk <;>
      simp [check_lambda_handler, hres, h5, hpo, hr, hst, postedContent]

/-- Witness for C6_status_worker: a concrete running instance with id
i-0123456789 and address 10.0.0.5. -/
theorem C6_status_worker_witness :
    countEff isDescribe (check_lambda_handler checkWorldRunning .null 0).2 = 1
  ∧ postedContent (check_lambda_handler checkWorldRunning .null 0).2 =
      some ("インスタンス【" ++ "i-0123456789" ++ "】は起動済みです\r" ++ "10.0.0.5")
  ∧ (check_lambda_handler checkWorldRunning .null 0).1 = .returns ("running " ++ "10.0.0.5") := by
  have h := C6_status_worker checkWorldRunning "ENC-ID" "ENC-URL" "i-0123456789"
    "https://discord.example/webhook" { stateName := "running", publicIp := some "10.0.0.5" }
    .null 0 rfl rfl rfl rfl rfl
  exact ⟨h.1, (h.2.1 "10.0.0.5" rfl).1, (h.2.1 "10.0.0.5" rfl).2.2.2 rfl⟩

/-- C7: a worker invocation with either required environment variable absent
raises the missing-configuration error with an empty effect trace: no
decryption call, no compute-control call, no notification happens first. -/
theorem C7_missing_config (ws : StopWorld) (wc : CheckWorld) (fuel : Nat)
    (ev ev2 : Json) (c c2 : Nat) :
    ((ws.env.instanceIdEnc = none ∨ ws.env.webhookUrlEnc = none) →
       stop_lambda_handler ws fuel ev c = (.raises .envMissingError, []))
  ∧ ((wc.env.instanceIdEnc = none ∨ wc.env.webhookUrlEnc = none) →
       check_lambda_handler wc ev2 c2 = (.raises .envMissingError, [])) := by
  constructor
  · rintro (h | h)
    · simp [stop_lambda_handler, resolveSecrets, h]
    · rcases hi : ws.env.instanceIdEnc with _ | e1 <;>
        simp [stop_lambda_handler, resolveSecrets, hi, h]
  · rintro (h | h)
    · simp [check_lambda_handler, resolveSecrets, h]
    · rcases hi : wc.env.instanceIdEnc with _ | e1 <;>
        simp [check_lambda_handler, resolveSecrets, hi, h]

/-- Witness for C7_missing_config: worlds whose INSTANCE_ID variable is absent. -/
theorem C7_missing_config_witness :
    stop_lambda_handler stopWorldMissingId 5 .null 0 = (.raises .envMissingError, [])
  ∧ check_lambda_handler checkWorldMissingId .null 0 = (.raises .envMissingError, []) :=
  ⟨(C7_missing_config stopWorldMissingId checkWorldMissingId 5 .null .null 0 0).1 (Or.inl rfl),
   (C7_missing_config stopWorldMissingId checkWorldMissingId 5 .null .null 0 0).2 (Or.inl rfl)⟩

/-- C8: in a Stop invocation whose configuration resolves and whose stop call
succeeds, the effect trace is exactly KMS, KMS, stop, then the one
notification attempt: the stop precedes the notification, and when the
notification fails the invocation raises the delivery error with no further
compute-control effect after (or compensating for) the already-issued stop. -/
theorem C8_stop_notification_posthoc (w : StopWorld) (fuel : Nat)
    (e1 e2 iid url : String) (ev : Json) (c : Nat)
    (h1 : w.env.instanceIdEnc = some e1) (h2 : w.env.webhookUrlEnc = some e2)
    (h3 : w.env.decrypt e1 w.env.functionName = some iid)
    (h4 : w.env.decrypt e2 w.env.functionName = some url)
    (h5 : w.stopOk = true) :
    (stop_lambda_handler w fuel ev c).2 =
      [.kmsDecrypt e1, .kmsDecrypt e2, .ec2Stop iid,
       .webhookPost url ("インスタンス【" ++ iid ++ "】が停止しました") 4096]
  ∧ (w.postOk = false → (stop_lambda_handler w fuel ev c).1 = .raises .webhookError)
  ∧ (w.postOk = true → (stop_lambda_handler w fuel ev c).1 = .returns "-") := by
  have hres := resolveSecrets_ok w.env e1 e2 iid url h1 h2 h3 h4
  refine ⟨?_, ?_, ?_⟩ <;>
    rcases hpo : w.postOk <;>
      simp [stop_lambda_handler, hres, h5, stopStateLoop_false, hpo]

/-- Witness for C8_stop_notification_posthoc: the concrete Stop world. -/
theorem C8_stop_notification_posthoc_witness :
    (stop_lambda_handler stopWorldNeverStops 7 .null 0).2 =
      [.kmsDecrypt "ENC-ID", .kmsDecrypt "ENC-URL", .ec2Stop "i-0123456789",
       .webhookPost "https://discord.example/webhook"
         ("インスタンス【" ++ "i-0123456789" ++ "】が停止しました") 4096]
  ∧ (stop_lambda_handler stopWorldNeverStops 7 .null 0).1 = .returns "-" := by
  have h := C8_stop_notification_posthoc stopWorldNeverStops 7 "ENC-ID" "ENC-URL"
    "i-0123456789" "https://discord.example/webhook" .null 0 rfl rfl rfl rfl rfl
  exact ⟨h.1, h.2.2 rfl⟩

/-- C9: two Status invocations against the same environment, secrets, and
backing instance state produce identical results and byte-identical
notification content, whatever the event payloads and contexts. -/
theorem C9_status_idempotent (w : CheckWorld) (ev1 ev2 : Json) (c1 c2 : Nat) :
    postedContent (check_lambda_handler w ev1 c1).2 =
      postedContent (check_lambda_handler w ev2 c2).2
  ∧ check_lambda_handler w ev1 c1 = check_lambda_handler w ev2 c2 :=
  ⟨rfl, rfl⟩

/-- C10: every outbound payload carries the fixed flags value 4096 — the
gateway's acknowledgment response body, and every notification emitted by the
Stop, Status, and (spec-modelled) Start workers, on every code path. -/
theorem C10_flags_always_4096 :
    (∀ (w : GatewayWorld) (fn msg : String) (r : Response) (invs : List Invocation),
       invoke_lambda_function w fn msg = (.resp r, invs) →
       (jGet r.body "data").bind (jGet · "flags") = some (.num 4096))
  ∧ (∀ (w : StopWorld) (fuel : Nat) (ev : Json) (c : Nat) (e : Effect),
       e ∈ (stop_lambda_handler w fuel ev c).2 → effectFlags4096 e = true)
  ∧ (∀ (w : CheckWorld) (ev : Json) (c : Nat) (e : Effect),
       e ∈ (check_lambda_handler w ev c).2 → effectFlags4096 e = true)
  ∧ (∀ (w : StartWorld) (ev : Json) (c : Nat) (e : Effect),
       e ∈ (start_lambda_handler w ev c).2 → effectFlags4096 e = true) := by
  refine ⟨?_, ?_, ?_, ?_⟩
  · intro w fn msg r invs h
    rcases hok : w.invokeOk fn <;> simp [invoke_lambda_function, hok] at h
    rcases h with ⟨h1, h2⟩
    subst h1
    rfl
  · intro w fuel ev c e he
    rcases hres : resolveSecrets w.env with ⟨r, tr⟩
    have htr : ∀ x ∈ tr, ∃ cc, x = Effect.kmsDecrypt cc := by
      intro x hx
      exact resolveSecrets_effects w.env x (by rw [hres]; exact hx)
    have hflag : ∀ x ∈ tr, effectFlags4096 x = true := by
      intro x hx
      obtain ⟨cc, hcc⟩ := htr x hx
      rw [hcc]
      rfl
    rcases r with e' | ⟨iid, url⟩ <;>
      rcases hst : w.stopOk <;>
        rcases hpo : w.postOk <;>
          simp [stop_lambda_handler, hres, hst, hpo, stopStateLoop_false] at he
    all_goals
      first
      | exact hflag e he
      | (rcases he with he | rfl
         · exact hflag e he
         · rfl)
      | (rcases he with he | rfl | rfl
         · exact hflag e he
         · rfl
         · rfl)
  · intro w ev c e he
    rcases hres : resolveSecrets w.env with ⟨r, tr⟩
    have htr : ∀ x ∈ tr, ∃ cc, x = Effect.kmsDecrypt cc := by
      intro x hx
      exact resolveSecrets_effects w.env x (by rw [hres]; exact hx)
    have hflag : ∀ x ∈ tr, effectFlags4096 x = true := by
      intro x hx
      obtain ⟨cc, hcc⟩ := htr x hx
      rw [hcc]
      rfl
    rcases r with e' | ⟨iid, url⟩ <;>
      rcases hd : w.describeResult with _ | desc <;>
        rcases hpo : w.postOk <;>
          simp [check_lambda_handler, hres, hd, hpo] at he
    all_goals
      first
      | exact hflag e he
      | (rcases he with he | rfl
         · exact hflag e he
         · rfl)
      | (rcases he with he | rfl | rfl
         · exact hflag e he
         · rfl
         · rfl)
  · intro w ev c e he
    rcases hres : resolveSecrets w.env with ⟨r, tr⟩
    have htr : ∀ x ∈ tr, ∃ cc, x = Effect.kmsDecrypt cc := by
      intro x hx
      exact resolveSecrets_effects w.env x (by rw [hres]; exact hx)
    have hflag : ∀ x ∈ tr, effectFlags4096 x = true := by
      intro x hx
      obtain ⟨cc, hcc⟩ := htr x hx
      rw [hcc]
      rfl
    rcases r with e' | ⟨iid, url⟩ <;>
      rcases hst : w.startOk <;>
        rcases hpo : w.postOk <;>
          simp [start_lambda_handler, hres, hst, hpo] at he
    all_goals
      first
      | exact hflag e he
      | (rcases he with he | rfl
         · exact hflag e he
         · rfl)
      | (rcases he with he | rfl | rfl
         · exact hflag e he
         · rfl
         · rfl)

/-- Witness for C10_flags_always_4096: the notification actually posted by
the Stop worker in the concrete world carries flags 4096. -/
theorem C10_flags_always_4096_witness :
    effectFlags4096 (.webhookPost "https://discord.example/webhook"
      "インスタンス【i-0123456789】が停止しました" 4096) = true :=
  C10_flags_always_4096.2.1 stopWorldNeverStops 1000 .null 0
    (.webhookPost "https://discord.example/webhook"
      "インスタンス【i-0123456789】が停止しました" 4096) (by decide)

end PapermcDiscord
